import Mathlib

/-
Verification of the MSK cluster configuration validator and the MskKdaS3
stack parameters of the aws-streaming-data-solution-for-amazon-kinesis
repository, as a shallow embedding in Lean 4.
-/

namespace KafkaCluster

/-- Modelled from the spec: the `ClusterConfig` record of §3.  The
implementation file `lib/msk-cluster.ts` is not part of the sources at hand
(only its test suite is), so the record follows the spec's field list. -/
structure ClusterConfig where
  kafkaVersion : String
  numberOfBrokerNodes : Int
  brokerInstanceType : String
  monitoringLevel : String
  ebsVolumeSize : Int
  brokerVpcId : String
  brokerSubnets : List String
deriving Repr, DecidableEq

/-- Modelled from the spec: the fixed allow-list of supported broker software
versions (`AllowedKafkaVersions`).  The spec fixes only that it is a constant
list; the test suite pins the membership of the string 2.2.1 and the
non-membership of FOO. -/
def AllowedKafkaVersions : List String := ["2.2.1"]

/-- Modelled from the spec: the fixed allow-list of supported instance sizes
(`AllowedInstanceTypes`).  The test suite pins the membership of
kafka.m5.large and the non-membership of FOO. -/
def AllowedInstanceTypes : List String := ["kafka.m5.large"]

/-- Modelled from the spec: the fixed allow-list of monitoring levels
(`AllowedMonitoringLevels`), enumerated in §3 of the spec. -/
def AllowedMonitoringLevels : List String :=
  ["DEFAULT", "PER_BROKER", "PER_TOPIC_PER_BROKER"]

/-- Modelled from the spec: the tagged-variant error type of §7/§9, one
variant per taxonomy entry, each carrying the specific offending value(s). -/
inductive ValidationError where
  | SubnetCountOutOfRange (brokerSubnets : List String)
  | NonPositiveBrokerCount (numberOfBrokerNodes : Int)
  | BrokerCountNotMultipleOfSubnets (numberOfBrokerNodes : Int) (subnetCount : Nat)
  | VolumeSizeOutOfRange (ebsVolumeSize : Int)
  | UnknownKafkaVersion (kafkaVersion : String)
  | UnknownInstanceType (brokerInstanceType : String)
  | UnknownMonitoringLevel (monitoringLevel : String)
deriving Repr, DecidableEq

/-- Modelled from the spec: the failed field name carried by each error
(§4.1: each failure carries the failed field name). -/
def ValidationError.fieldName : ValidationError → String
  | .SubnetCountOutOfRange _ => "brokerSubnets"
  | .NonPositiveBrokerCount _ => "numberOfBrokerNodes"
  | .BrokerCountNotMultipleOfSubnets _ _ => "numberOfBrokerNodes"
  | .VolumeSizeOutOfRange _ => "ebsVolumeSize"
  | .UnknownKafkaVersion _ => "kafkaVersion"
  | .UnknownInstanceType _ => "brokerInstanceType"
  | .UnknownMonitoringLevel _ => "monitoringLevel"

/-- Modelled from the spec: the human-readable message of each error
(§4.1/§6).  The literal wording is the compatibility surface matched by the
test suite in `test/msk-cluster.test.ts`. -/
def ValidationError.message : ValidationError → String
  | .SubnetCountOutOfRange _ => "brokerSubnets must contain between 2 and 3 items"
  | .NonPositiveBrokerCount _ => "numberOfBrokerNodes must be a positive number"
  | .BrokerCountNotMultipleOfSubnets _ _ =>
      "numberOfBrokerNodes must be a multiple of brokerSubnets"
  | .VolumeSizeOutOfRange v =>
      "ebsVolumeSize must be a value between 1 and 16384 GiB (given " ++ toString v ++ ")"
  | .UnknownKafkaVersion v => "Unknown Kafka version: " ++ v
  | .UnknownInstanceType t => "Unknown instance type: " ++ t
  | .UnknownMonitoringLevel l => "Unknown monitoring level: " ++ l

/-- Modelled from the spec: the `ClusterConfigValidator` of §4.1, a fail-fast
sequence of the seven guard checks in the spec's fixed order; on success the
input configuration is returned unchanged (pass-through, §4.1). -/
def validate (c : ClusterConfig) : Except ValidationError ClusterConfig :=
  if c.brokerSubnets.length < 2 ∨ 3 < c.brokerSubnets.length then
    .error (.SubnetCountOutOfRange c.brokerSubnets)
  else if c.numberOfBrokerNodes ≤ 0 then
    .error (.NonPositiveBrokerCount c.numberOfBrokerNodes)
  else if ¬ c.numberOfBrokerNodes % (c.brokerSubnets.length : Int) = 0 then
    .error (.BrokerCountNotMultipleOfSubnets c.numberOfBrokerNodes c.brokerSubnets.length)
  else if c.ebsVolumeSize < 1 ∨ 16384 < c.ebsVolumeSize then
    .error (.VolumeSizeOutOfRange c.ebsVolumeSize)
  else if c.kafkaVersion ∉ AllowedKafkaVersions then
    .error (.UnknownKafkaVersion c.kafkaVersion)
  else if c.brokerInstanceType ∉ AllowedInstanceTypes then
    .error (.UnknownInstanceType c.brokerInstanceType)
  else if c.monitoringLevel ∉ AllowedMonitoringLevels then
    .error (.UnknownMonitoringLevel c.monitoringLevel)
  else .ok c

end KafkaCluster

open KafkaCluster

/-- C1: for the scenario configuration with any positive multiple of 2 as the
broker-node count (and any VPC id), validation succeeds and returns the input
configuration unchanged, with no normalization applied to any field. -/
theorem validate_scenario_ok (vpc : String) (n : Int)
    (hpos : 0 < n) (hmul : n % 2 = 0) :
    validate { kafkaVersion := "2.2.1", numberOfBrokerNodes := n,
               brokerInstanceType := "kafka.m5.large", monitoringLevel := "DEFAULT",
               ebsVolumeSize := 1000, brokerVpcId := vpc,
               brokerSubnets := ["subnet-a", "subnet-b"] }
      = .ok { kafkaVersion := "2.2.1", numberOfBrokerNodes := n,
              brokerInstanceType := "kafka.m5.large", monitoringLevel := "DEFAULT",
              ebsVolumeSize := 1000, brokerVpcId := vpc,
              brokerSubnets := ["subnet-a", "subnet-b"] } := by
  unfold validate
  simp only [List.length_cons, List.length_nil]
  rw [if_neg (by omega), if_neg (by omega), if_neg (by push_neg; simpa using hmul),
      if_neg (by omega), if_neg (by simp [AllowedKafkaVersions]),
      if_neg (by simp [AllowedInstanceTypes]),
      if_neg (by simp [AllowedMonitoringLevels])]

/-- C1 witness: the scenario holds at the concrete broker count 4. -/
theorem validate_scenario_ok_witness :
    validate { kafkaVersion := "2.2.1", numberOfBrokerNodes := 4,
               brokerInstanceType := "kafka.m5.large", monitoringLevel := "DEFAULT",
               ebsVolumeSize := 1000, brokerVpcId := "my-vpc-id",
               brokerSubnets := ["subnet-a", "subnet-b"] }
      = .ok { kafkaVersion := "2.2.1", numberOfBrokerNodes := 4,
              brokerInstanceType := "kafka.m5.large", monitoringLevel := "DEFAULT",
              ebsVolumeSize := 1000, brokerVpcId := "my-vpc-id",
              brokerSubnets := ["subnet-a", "subnet-b"] } :=
  validate_scenario_ok "my-vpc-id" 4 (by decide) (by decide)

/-- C2: whenever the subnet list's length is outside [2,3], validation fails
with the subnet-count error carrying that list, regardless of all other
fields, so this failure precedes every other check. -/
theorem validate_subnet_count_fails (c : ClusterConfig)
    (h : c.brokerSubnets.length < 2 ∨ 3 < c.brokerSubnets.length) :
    validate c = .error (.SubnetCountOutOfRange c.brokerSubnets) := by
  unfold validate
  rw [if_pos h]

/-- C2 witness: a 4-subnet list with 2 broker nodes reports the subnet-count
error, not the divisibility error. -/
theorem validate_subnet_count_fails_witness :
    validate { kafkaVersion := "2.2.1", numberOfBrokerNodes := 2,
               brokerInstanceType := "kafka.m5.large", monitoringLevel := "DEFAULT",
               ebsVolumeSize := 1000, brokerVpcId := "my-vpc-id",
               brokerSubnets := ["subnet-0", "subnet-1", "subnet-2", "subnet-3"] }
      = .error (.SubnetCountOutOfRange ["subnet-0", "subnet-1", "subnet-2", "subnet-3"]) :=
  validate_subnet_count_fails _ (by right; decide)

/-- C3: with a valid subnet count (2 or 3 subnets), a non-positive broker
node count fails with the non-positive broker count error. -/
theorem validate_broker_count_fails (c : ClusterConfig)
    (hs : 2 ≤ c.brokerSubnets.length) (hs3 : c.brokerSubnets.length ≤ 3)
    (hn : c.numberOfBrokerNodes ≤ 0) :
    validate c = .error (.NonPositiveBrokerCount c.numberOfBrokerNodes) := by
  unfold validate
  rw [if_neg (by omega), if_pos hn]

/-- C3 witness: 0 broker nodes over two subnets fails with the non-positive
broker count error. -/
theorem validate_broker_count_fails_witness :
    validate { kafkaVersion := "2.2.1", numberOfBrokerNodes := 0,
               brokerInstanceType := "kafka.m5.large", monitoringLevel := "DEFAULT",
               ebsVolumeSize := 1000, brokerVpcId := "my-vpc-id",
               brokerSubnets := ["subnet-a", "subnet-b"] }
      = .error (.NonPositiveBrokerCount 0) :=
  validate_broker_count_fails _ (by decide) (by decide) (by decide)

/-- C4: with a valid subnet count and a positive broker node count that is
not an exact multiple of the subnet count, validation fails with the
divisibility error. -/
theorem validate_divisibility_fails (c : ClusterConfig)
    (hs : 2 ≤ c.brokerSubnets.length) (hs3 : c.brokerSubnets.length ≤ 3)
    (hn : 0 < c.numberOfBrokerNodes)
    (hd : ¬ c.numberOfBrokerNodes % (c.brokerSubnets.length : Int) = 0) :
    validate c
      = .error (.BrokerCountNotMultipleOfSubnets c.numberOfBrokerNodes
                  c.brokerSubnets.length) := by
  unfold validate
  rw [if_neg (by omega), if_neg (by omega), if_pos hd]

/-- C4 witness: 3 broker nodes over 2 subnets fails with the divisibility
error. -/
theorem validate_divisibility_fails_witness :
    validate { kafkaVersion := "2.2.1", numberOfBrokerNodes := 3,
               brokerInstanceType := "kafka.m5.large", monitoringLevel := "DEFAULT",
               ebsVolumeSize := 1000, brokerVpcId := "my-vpc-id",
               brokerSubnets := ["subnet-a", "subnet-b"] }
      = .error (.BrokerCountNotMultipleOfSubnets 3 2) :=
  validate_divisibility_fails _ (by decide) (by decide) (by decide) (by decide)

/-- C5: once the subnet, broker-count and divisibility checks pass, an EBS
volume size inside [1, 16384] never produces the volume-size error, and a
size outside that range fails with the volume-size error whose message cites
the given value and the bound 16384. -/
theorem validate_volume_size (c : ClusterConfig)
    (hs : 2 ≤ c.brokerSubnets.length) (hs3 : c.brokerSubnets.length ≤ 3)
    (hn : 0 < c.numberOfBrokerNodes)
    (hd : c.numberOfBrokerNodes % (c.brokerSubnets.length : Int) = 0) :
    (1 ≤ c.ebsVolumeSize → c.ebsVolumeSize ≤ 16384 →
        ∀ x : Int, validate c ≠ .error (.VolumeSizeOutOfRange x))
    ∧ ((c.ebsVolumeSize < 1 ∨ 16384 < c.ebsVolumeSize) →
        validate c = .error (.VolumeSizeOutOfRange c.ebsVolumeSize)
        ∧ (ValidationError.VolumeSizeOutOfRange c.ebsVolumeSize).message
            = "ebsVolumeSize must be a value between 1 and 16384 GiB (given "
              ++ toString c.ebsVolumeSize ++ ")") := by
  constructor
  · intro h1 h2 x
    unfold validate
    rw [if_neg (by omega), if_neg (by omega), if_neg (by simpa using hd),
        if_neg (by omega)]
    split
    · simp
    · split
      · simp
      · split
        · simp
        · simp
  · intro hbad
    refine ⟨?_, rfl⟩
    unfold validate
    rw [if_neg (by omega), if_neg (by omega), if_neg (by simpa using hd),
        if_pos hbad]

/-- C5 witness: the scenario with volume size 16385 fails with the
volume-size error, and the message cites 16385 and the bound 16384. -/
theorem validate_volume_size_witness :
    validate { kafkaVersion := "2.2.1", numberOfBrokerNodes := 2,
               brokerInstanceType := "kafka.m5.large", monitoringLevel := "DEFAULT",
               ebsVolumeSize := 16385, brokerVpcId := "my-vpc-id",
               brokerSubnets := ["subnet-a", "subnet-b"] }
      = .error (.VolumeSizeOutOfRange 16385)
    ∧ (ValidationError.VolumeSizeOutOfRange 16385).message
        = "ebsVolumeSize must be a value between 1 and 16384 GiB (given 16385)" :=
  (validate_volume_size _ (by decide) (by decide) (by decide) (by decide)).2
    (by right; decide)

/-- C6: once the subnet, broker-count, divisibility and volume-size checks
pass, a Kafka version outside the allow-list fails with the unknown-version
error, whose message contains the literal offending version. -/
theorem validate_kafka_version_fails (c : ClusterConfig)
    (hs : 2 ≤ c.brokerSubnets.length) (hs3 : c.brokerSubnets.length ≤ 3)
    (hn : 0 < c.numberOfBrokerNodes)
    (hd : c.numberOfBrokerNodes % (c.brokerSubnets.length : Int) = 0)
    (hv1 : 1 ≤ c.ebsVolumeSize) (hv2 : c.ebsVolumeSize ≤ 16384)
    (hk : c.kafkaVersion ∉ AllowedKafkaVersions) :
    validate c = .error (.UnknownKafkaVersion c.kafkaVersion)
    ∧ (ValidationError.UnknownKafkaVersion c.kafkaVersion).message
        = "Unknown Kafka version: " ++ c.kafkaVersion := by
  refine ⟨?_, rfl⟩
  unfold validate
  rw [if_neg (by omega), if_neg (by omega), if_neg (by simpa using hd),
      if_neg (by omega), if_pos hk]

/-- C6 witness: the scenario with Kafka version FOO fails with the
unknown-version error and the message contains FOO. -/
theorem validate_kafka_version_fails_witness :
    validate { kafkaVersion := "FOO", numberOfBrokerNodes := 2,
               brokerInstanceType := "kafka.m5.large", monitoringLevel := "DEFAULT",
               ebsVolumeSize := 1000, brokerVpcId := "my-vpc-id",
               brokerSubnets := ["subnet-a", "subnet-b"] }
      = .error (.UnknownKafkaVersion "FOO")
    ∧ (ValidationError.UnknownKafkaVersion "FOO").message
        = "Unknown Kafka version: FOO" :=
  validate_kafka_version_fails _ (by decide) (by decide) (by decide) (by decide)
    (by decide) (by decide) (by simp [AllowedKafkaVersions])

namespace KafkaCluster

/-- Modelled from the spec: the offending value carried by each error is the
configuration's own value for the failed field (§4.1: each failure carries
the offending value; the input is never consumed destructively). -/
def errorCarriesConfigValue (c : ClusterConfig) : ValidationError → Prop
  | .SubnetCountOutOfRange s => s = c.brokerSubnets
  | .NonPositiveBrokerCount n => n = c.numberOfBrokerNodes
  | .BrokerCountNotMultipleOfSubnets n k =>
      n = c.numberOfBrokerNodes ∧ k = c.brokerSubnets.length
  | .VolumeSizeOutOfRange v => v = c.ebsVolumeSize
  | .UnknownKafkaVersion v => v = c.kafkaVersion
  | .UnknownInstanceType t => t = c.brokerInstanceType
  | .UnknownMonitoringLevel l => l = c.monitoringLevel

theorem data_append_ne_nil (s t : String) (h : s.data ≠ []) : (s ++ t).data ≠ [] := by
  have hd : (s ++ t).data = s.data ++ t.data := rfl
  rw [hd]
  simp [h]

theorem str_append_ne_empty (s t : String) (h : s.data ≠ []) : s ++ t ≠ "" := by
  intro heq
  exact data_append_ne_nil s t h (congrArg String.data heq)

theorem ValidationError.fieldName_ne_empty (e : ValidationError) : e.fieldName ≠ "" := by
  cases e <;> simp only [ValidationError.fieldName] <;> decide

theorem ValidationError.message_ne_empty (e : ValidationError) : e.message ≠ "" := by
  cases e <;> simp only [ValidationError.message] <;>
    first
      | decide
      | exact str_append_ne_empty _ _ (by decide)
      | exact str_append_ne_empty _ _ (data_append_ne_nil _ _ (by decide))

end KafkaCluster

/-- C7: every validation failure is a distinct tagged variant that carries
the configuration's own value for the failed field (in particular the
subnet-count failure carries the offending subnet list), together with a
non-empty field name and a non-empty human-readable message. -/
theorem validate_error_carries_info (c : ClusterConfig) (e : ValidationError)
    (h : validate c = .error e) :
    errorCarriesConfigValue c e ∧ e.fieldName ≠ "" ∧ e.message ≠ "" := by
  refine ⟨?_, e.fieldName_ne_empty, e.message_ne_empty⟩
  unfold validate at h
  split at h
  · cases h; exact rfl
  · split at h
    · cases h; exact rfl
    · split at h
      · cases h; exact ⟨rfl, rfl⟩
      · split at h
        · cases h; exact rfl
        · split at h
          · cases h; exact rfl
          · split at h
            · cases h; exact rfl
            · split at h
              · cases h; exact rfl
              · cases h

/-- C7 witness: the empty-subnet failure carries the offending (empty) subnet
list together with its field name and message. -/
theorem validate_error_carries_info_witness :
    errorCarriesConfigValue
        { kafkaVersion := "2.2.1", numberOfBrokerNodes := 2,
          brokerInstanceType := "kafka.m5.large", monitoringLevel := "DEFAULT",
          ebsVolumeSize := 1000, brokerVpcId := "my-vpc-id",
          brokerSubnets := ([] : List String) }
        (.SubnetCountOutOfRange ([] : List String))
    ∧ (ValidationError.SubnetCountOutOfRange ([] : List String)).fieldName ≠ ""
    ∧ (ValidationError.SubnetCountOutOfRange ([] : List String)).message ≠ "" :=
  validate_error_carries_info _ _ rfl

namespace MskKdaS3

/-- Shallow embedding of the CloudFormation parameter properties used by the
MskKdaS3 stack (`cdk.CfnParameter` props): a type, an optional default value
and an optional list of allowed values. -/
structure CfnParameterProps where
  type : String
  default : Option String
  allowedValues : Option (List String)
deriving Repr, DecidableEq

/-- Embedded from `patterns/msk-kda-s3.ts`: the private `BinaryOptions`
constant. -/
def BinaryOptions : List String := ["true", "false"]

/-- Embedded from `patterns/msk-kda-s3.ts`: the `EnableSnapshots` template
parameter declaration. -/
def snapshots : CfnParameterProps :=
  { type := "String", default := some "true", allowedValues := some BinaryOptions }

/-- Embedded from `patterns/msk-kda-s3.ts`: the `EnableAutoScaling` template
parameter declaration. -/
def autoScaling : CfnParameterProps :=
  { type := "String", default := some "true", allowedValues := some BinaryOptions }

end MskKdaS3

/-- C10: the EnableSnapshots and EnableAutoScaling parameters of the MskKdaS3
stack each accept exactly the two string values true and false (the
BinaryOptions list) and both default to the string true. -/
theorem mskKdaS3_binary_parameters :
    MskKdaS3.snapshots.allowedValues = some ["true", "false"]
    ∧ MskKdaS3.autoScaling.allowedValues = some ["true", "false"]
    ∧ MskKdaS3.snapshots.default = some "true"
    ∧ MskKdaS3.autoScaling.default = some "true" := by
  refine ⟨rfl, rfl, rfl, rfl⟩
